import Mathlib

/-!
Verification development for the TrollRestore workflow (`trollstore.py`).

The Python program is shallowly embedded below:

* strings are Lean `String`s; the handful of Python string operations the
  program uses (`.lower()`, `.endswith`, `.split('.')[0]`, `in` for
  substring tests) are re-implemented on the underlying character lists so
  that everything evaluates inside the kernel;
* `pathlib.Path` is embedded as `PyPath` (an absolute-flag plus the list of
  non-empty, non-dot components), with `name`, `parent` and `parents`
  mirroring the PurePosixPath behaviour the program relies on;
* `packaging.version.parse` results are embedded as the list of numeric
  release components, compared with zero-padding exactly as PEP 440
  compares release segments (the device version strings involved are plain
  dotted numerals);
* the backup entry model of the `sparserestore` package is embedded as the
  inductive `Entry` (spec-modelled, see its doc comment);
* the `cli`/`main` control flow is embedded as the pure functions `runCli`
  and `mainExitCode` over an `Env` record that supplies the results of all
  external collaborators (device queries, app registry, payload download,
  restore submission, reboot).
-/

/-- Contiguous occurrence of `pat` inside `l`. -/
def isInfixL (pat : List Char) : List Char → Bool
  | [] => pat.isEmpty
  | x :: xs => pat.isPrefixOf (x :: xs) || isInfixL pat xs

/-- Substring test, embedding Python's `"pat" in s`:
`pat` occurs contiguously inside `s`. -/
def containsSubstr (s pat : String) : Bool :=
  isInfixL pat.data s.data

/-- Suffix test, embedding Python's `s.endswith(suf)` (case sensitive). -/
def strEndsWith (s suf : String) : Bool :=
  suf.data.isSuffixOf s.data

/-- ASCII lower-casing, embedding Python's `s.lower()` on the ASCII names
the program deals with. -/
def lowerStr (s : String) : String :=
  String.mk (s.data.map Char.toLower)

/-- Split a character list at every occurrence of `c`, keeping empty
segments — the behaviour of Python's `str.split(sep)`. -/
def splitOnChar (c : Char) : List Char → List (List Char)
  | [] => [[]]
  | x :: xs =>
    match splitOnChar c xs with
    | [] => if x == c then [[], []] else [[x]]
    | g :: gs => if x == c then [] :: g :: gs else (x :: g) :: gs

/-- Everything before the first `'.'`, embedding the program's
`app.split('.')[0]` (line 116 of `trollstore.py`). -/
def splitFirst (s : String) : String :=
  String.mk (s.data.takeWhile (fun c => !(c == '.')))

/-- Modelled from the spec: the "bundle name without extension" wording of
§4.2 step 4 — the name with its final dot-suffix removed (the identity on
names that contain no dot).  This is the spec-side reading to be compared
with the source's `splitFirst`. -/
def stripExtSpec (s : String) : String :=
  if s.data.contains '.' then
    String.mk (((s.data.reverse.dropWhile (fun c => !(c == '.'))).drop 1).reverse)
  else s

/-- Modelled from the spec: the Entry Model of §3/§4.1 (the `Directory` and
`ConcreteFile` classes of the `sparserestore.backup` module, which is not
part of the sources under verification; §4.1 states they are pure data with
optional owner/group, byte contents and an inode hint).  Constructor
arguments not passed at a call site are `none`. -/
inductive Entry where
  | directory (relativePath : String) (domain : String)
      (owner group : Option Nat) : Entry
  | concreteFile (relativePath : String) (domain : String)
      (owner group : Option Nat) (contents : List Nat)
      (inode : Option Nat) : Entry
deriving DecidableEq

/-- Domain string of an entry. -/
def Entry.domain : Entry → String
  | .directory _ d _ _ => d
  | .concreteFile _ d _ _ _ _ => d

/-- Relative path of an entry. -/
def Entry.relativePath : Entry → String
  | .directory r _ _ _ => r
  | .concreteFile r _ _ _ _ _ => r

/-- Whether the entry is a `Directory` entry. -/
def Entry.isDirectory : Entry → Bool
  | .directory _ _ _ _ => true
  | .concreteFile _ _ _ _ _ _ => false

/-- The manifest constructed by `trollstore.py` lines 102–131: the ordered
list of `backup.Directory` / `backup.ConcreteFile` arguments, with the
f-strings rendered as concatenations.  `helperContents` is the downloaded
payload, `app` the resolved bundle name, `appUuid` the container UUID. -/
def buildManifest (helperContents : List Nat) (app appUuid : String) :
    List Entry :=
  [ .directory "" "RootDomain" none none,
    .directory "Library" "RootDomain" none none,
    .directory "Library/Preferences" "RootDomain" none none,
    .concreteFile "Library/Preferences/temp" "RootDomain"
      (some 33) (some 33) helperContents (some 0),
    .directory ""
      ("SysContainerDomain-../../../../../../../../var/backup/var/containers/Bundle/Application/"
        ++ appUuid ++ "/" ++ app)
      (some 33) (some 33),
    .concreteFile ""
      ("SysContainerDomain-../../../../../../../../var/backup/var/containers/Bundle/Application/"
        ++ appUuid ++ "/" ++ app ++ "/" ++ splitFirst app)
      (some 33) (some 33) [] (some 0),
    .concreteFile ""
      "SysContainerDomain-../../../../../../../../var/.backup.i/var/root/Library/Preferences/temp"
      (some 501) (some 501) [] none,
    .concreteFile ""
      ("SysContainerDomain-../../../../../../../.." ++ "/crash_on_purpose")
      none none [] none ]

/-- Traversal builder: `ascend n` is `n` repetitions of the upward step
`"../"`. -/
def ascend : Nat → String
  | 0 => ""
  | n + 1 => "../" ++ ascend n

example : ascend 8 = "../../../../../../../../" := by decide

example :
    "SysContainerDomain-" ++ ascend 8 ++ "crash_on_purpose"
      = "SysContainerDomain-../../../../../../../.." ++ "/crash_on_purpose" := by
  decide

example : splitFirst "Tips.app" = "Tips" := by decide
example : splitFirst "a.b.app" = "a" := by decide
example : stripExtSpec "a.b.app" = "a.b" := by decide
example : stripExtSpec "Tips.app" = "Tips" := by decide

/-- Embedding of `pathlib.PurePosixPath`: whether the path is absolute and
its normalized components (empty and `"."` segments are dropped by the
`pathlib` parser; path equality compares exactly this data). -/
structure PyPath where
  absolute : Bool
  parts : List String
deriving DecidableEq

/-- Embedding of `pathlib.Path(s)` for POSIX path strings. -/
def parsePath (s : String) : PyPath where
  absolute := match s.data with | '/' :: _ => true | _ => false
  parts := ((splitOnChar '/' s.data).map String.mk).filter
    (fun c => !(c == "") && !(c == "."))

/-- Embedding of `Path.name`: the final path component (empty for a pure
root path). -/
def pathName (p : PyPath) : String :=
  (p.parts.getLast?).getD ""

/-- Embedding of `Path.parent`: drop the final component. -/
def parentPath (p : PyPath) : PyPath where
  absolute := p.absolute
  parts := p.parts.dropLast

/-- Embedding of `Path.parents`: every proper ancestor of the path, i.e.
the paths formed by the proper prefixes of its component list (down to the
root `/` or to `.`). -/
def pyParents (p : PyPath) : List PyPath :=
  (List.range p.parts.length).map fun k => PyPath.mk p.absolute (p.parts.take k)

example : pathName (parsePath "/private/var/containers/Bundle/Application/ABCD-1234/Tips.app")
    = "Tips.app" := by decide
example : pathName (parentPath (parsePath "/private/var/containers/Bundle/Application/ABCD-1234/Tips.app"))
    = "ABCD-1234" := by decide
example : parsePath "/private/var/containers/Bundle/Application"
    ∈ pyParents (parsePath "/private/var/containers/Bundle/Application/ABCD-1234/Tips.app") := by decide
example : parsePath "/private/var/containers/Bundle/Application"
    ∉ pyParents (parsePath "/Applications/Tips.app") := by decide

/-- Comparison of two parsed version release-segment lists, as
`packaging.version` compares releases (PEP 440): componentwise numeric
comparison with the shorter list padded by zeros. -/
def verCmp : List Nat → List Nat → Ordering
  | [], bs => if bs.all (fun b => b == 0) then Ordering.eq else Ordering.lt
  | a :: as, [] => if a == 0 then verCmp as [] else Ordering.gt
  | a :: as, b :: bs =>
    if a < b then Ordering.lt
    else if b < a then Ordering.gt
    else verCmp as bs

/-- Python `<` on parsed versions. -/
def verLt (a b : List Nat) : Bool := verCmp a b == Ordering.lt

/-- Python `>` on parsed versions. -/
def verGt (a b : List Nat) : Bool := verCmp a b == Ordering.gt

/-- Python `==` on parsed versions (`16.7 == 16.7.0` holds). -/
def verEq (a b : List Nat) : Bool := verCmp a b == Ordering.eq

/-- Non-strict order on parsed versions, used to state the spec's
`15.0 ≤ v ≤ 17.0` window. -/
def verLe (a b : List Nat) : Bool := verLt a b || verEq a b

/-- The version gate of `trollstore.py` lines 49–55: the negation of the
rejection condition
`v < 15.0 or v > 17.0 or 16.7 < v < 17.0 or (v == 16.7 and build != "20H18")`
(Python's `and` binds tighter than `or`, and the chained comparison is a
conjunction). -/
def eligible (v : List Nat) (build : String) : Bool :=
  !(verLt v [15, 0] || verGt v [17, 0]
    || (verGt v [16, 7] && verLt v [17, 0])
    || (verEq v [16, 7] && !(build == "20H18")))

example : eligible [16, 6] "X" = true := by decide
example : eligible [16, 7] "20H18" = true := by decide
example : eligible [16, 7] "20H17" = false := by decide
example : eligible [16, 7, 1] "20H18" = false := by decide
example : eligible [17, 0] "21A329" = true := by decide
example : eligible [17, 0, 1] "21A330" = false := by decide
example : eligible [16, 8] "20H300" = false := by decide
example : eligible [14, 8] "18H17" = false := by decide
example : eligible [15, 0] "19A344" = true := by decide
example : eligible [16, 7, 0] "20H18" = true := by decide

/-- Name normalization of `trollstore.py` lines 69–70: append `".app"`
when the input does not already end with it. -/
def normalizeAppName (s : String) : String :=
  if strEndsWith s ".app" then s else s ++ ".app"

/-- One iteration of the scan loop of `trollstore.py` lines 75–80.  The
state is the pair `(app_path, app)`; a registry value carrying no path
(a non-dict value or one without a `"Path"` key) leaves the state
untouched; a matching path overwrites both components (there is no
`break`). -/
def scanStep (st : Option PyPath × String) (v : Option String) :
    Option PyPath × String :=
  match v with
  | none => st
  | some s =>
    let p := parsePath s
    if lowerStr (pathName p) == lowerStr st.2 then (some p, pathName p) else st

/-- The whole scan loop of `trollstore.py` lines 74–80, started from
`app_path = None` and the normalized name. -/
def scanApps (app : String) (values : List (Option String)) :
    Option PyPath × String :=
  values.foldl scanStep (none, app)

/-- Specification-side description of what the scan loop computes: the
path of the LAST entry whose final path component matches `low`
case-insensitively (`low` is the lower-cased requested name). -/
def lastMatchVal (low : String) : List (Option String) → Option PyPath
  | [] => none
  | v :: rest =>
    match lastMatchVal low rest with
    | some q => some q
    | none =>
      match v with
      | some s =>
        if lowerStr (pathName (parsePath s)) == low then some (parsePath s)
        else none
      | none => none

/-- Claim-side description of the selection rule the spec asserts: the
path of the FIRST entry whose final path component matches `low`
case-insensitively. -/
def firstMatchVal (low : String) : List (Option String) → Option PyPath
  | [] => none
  | v :: rest =>
    match v with
    | some s =>
      if lowerStr (pathName (parsePath s)) == low then some (parsePath s)
      else firstMatchVal low rest
    | none => firstMatchVal low rest

/-- Result of the App Resolver portion of `cli` (lines 69–91). -/
inductive ResolveResult where
  | notFound : ResolveResult
  | notRemovable : ResolveResult
  | ok (bundleName uuid : String) : ResolveResult
deriving DecidableEq

/-- The canonical removable-bundle root of `trollstore.py` line 86. -/
def removableRoot : String := "/private/var/containers/Bundle/Application"

/-- The App Resolver of `trollstore.py` lines 69–91: normalize the name,
scan the registry values, fail when nothing matched, fail when the match
is not rooted under `removableRoot`, otherwise return the on-device
bundle name together with the parent-directory UUID. -/
def resolveApp (raw : String) (reg : List (String × Option String)) :
    ResolveResult :=
  let app := normalizeAppName raw
  let st := scanApps app (reg.map Prod.snd)
  match st.1 with
  | none => ResolveResult.notFound
  | some p =>
    if parsePath removableRoot ∈ pyParents p then
      ResolveResult.ok st.2 (pathName (parentPath p))
    else
      ResolveResult.notRemovable

example :
    resolveApp "Tips"
        [("com.apple.tips",
          some "/private/var/containers/Bundle/Application/ABCD-1234/Tips.app")]
      = ResolveResult.ok "Tips.app" "ABCD-1234" := by decide

example :
    resolveApp "tips"
        [("com.apple.tips", some "/Applications/Tips.app")]
      = ResolveResult.notRemovable := by decide

example :
    resolveApp "Tips" [("com.apple.stocks", none)]
      = ResolveResult.notFound := by decide

/-- Exceptions reaching the restore `try` block of `trollstore.py` lines
133–141: either a member of the `pymobiledevice3` exception family
(`PyMobileDevice3Exception`, the only class the handler catches) or any
other exception, each carrying its message. -/
inductive Exn where
  | pmd3 (msg : String) : Exn
  | other (msg : String) : Exn
deriving DecidableEq

/-- What the except-handler of lines 135–141 decides: fall through to the
reboot (`proceed`), call `exit(1)` (`findMyBlocked`), or let an exception
propagate out of `cli` (`reraise`). -/
inductive RestoreStep where
  | proceed : RestoreStep
  | findMyBlocked : RestoreStep
  | reraise (e : Exn) : RestoreStep
deriving DecidableEq

/-- The outcome interpretation of `trollstore.py` lines 133–141: only
`PyMobileDevice3Exception`s are caught; among those, a message containing
`"Find My"` exits with code 1, a message not containing
`"crash_on_purpose"` is re-raised, and anything else falls through. -/
def handleRestore : Option Exn → RestoreStep
  | none => RestoreStep.proceed
  | some (Exn.pmd3 msg) =>
    if containsSubstr msg "Find My" then RestoreStep.findMyBlocked
    else if !(containsSubstr msg "crash_on_purpose") then
      RestoreStep.reraise (Exn.pmd3 msg)
    else RestoreStep.proceed
  | some (Exn.other msg) => RestoreStep.reraise (Exn.other msg)

/-- Results of all external collaborators consumed by one run of `cli`:
the device values, the `--app` option and the interactive prompt answer,
the installed-app registry, the downloaded payload (`none` models a
download error), and the exceptions (if any) raised by `perform_restore`
and by the diagnostics restart. -/
structure Env where
  deviceClass : Option String
  buildVersion : Option String
  productVersion : List Nat
  appOpt : Option String
  promptAnswer : String
  registry : List (String × Option String)
  payload : Option (List Nat)
  restoreResult : Option Exn
  rebootResult : Option Exn
deriving DecidableEq

/-- Python truthiness of an optional string (`None` and `""` are falsy),
as used by `not all([...])` on line 43. -/
def truthyS : Option String → Bool
  | none => false
  | some s => !(s == "")

/-- The application name `cli` works with before normalization: the
`--app` option when truthy, otherwise the interactive prompt's answer
(lines 60–67). -/
def inputApp (env : Env) : String :=
  match env.appOpt with
  | some s => if s == "" then env.promptAnswer else s
  | none => env.promptAnswer

/-- Terminal outcome of one `cli` run.  The constructors that can only
occur after the manifest was submitted carry the submitted manifest;
`fatal` additionally carries the exception propagating out of `cli`. -/
inductive WorkflowResult where
  | deviceInfoUnavailable : WorkflowResult
  | unsupportedVersion : WorkflowResult
  | appNotFound : WorkflowResult
  | appNotRemovable : WorkflowResult
  | payloadUnavailable : WorkflowResult
  | findMyBlocked (m : List Entry) : WorkflowResult
  | fatal (m : List Entry) (e : Exn) : WorkflowResult
  | success (m : List Entry) : WorkflowResult
deriving DecidableEq

/-- The body of `cli` (`trollstore.py` lines 28–149) as a function of the
collaborator results: device-info check, version gate, App Resolver,
payload download, manifest construction, restore submission and outcome
interpretation, reboot. -/
def runCli (env : Env) : WorkflowResult :=
  if !(truthyS env.deviceClass && truthyS env.buildVersion) then
    WorkflowResult.deviceInfoUnavailable
  else if !(eligible env.productVersion (env.buildVersion.getD "")) then
    WorkflowResult.unsupportedVersion
  else
    match resolveApp (inputApp env) env.registry with
    | ResolveResult.notFound => WorkflowResult.appNotFound
    | ResolveResult.notRemovable => WorkflowResult.appNotRemovable
    | ResolveResult.ok name uuid =>
      match env.payload with
      | none => WorkflowResult.payloadUnavailable
      | some payload =>
        match handleRestore env.restoreResult with
        | RestoreStep.findMyBlocked =>
          WorkflowResult.findMyBlocked (buildManifest payload name uuid)
        | RestoreStep.reraise e =>
          WorkflowResult.fatal (buildManifest payload name uuid) e
        | RestoreStep.proceed =>
          match env.rebootResult with
          | some e => WorkflowResult.fatal (buildManifest payload name uuid) e
          | none => WorkflowResult.success (buildManifest payload name uuid)

/-- One invocation of `main` (`trollstore.py` lines 152–167): the click
command setup may fail to find a device or reject the usage before the
`cli` body runs; otherwise the body runs with collaborator results. -/
inductive Invocation where
  | noDevice : Invocation
  | usage : Invocation
  | run (env : Env) : Invocation

/-- The process exit code produced by `main`: 1 for
`NoDeviceConnectedError`, 2 for `click.UsageError`, 1 when an exception
propagates out of `cli` (the bare `except Exception` handler) and for the
`exit(1)` of the Find My branch (a `SystemExit` passes through the
handlers), and 0 whenever `cli` returns normally — which includes every
early `return` failure path. -/
def mainExitCode : Invocation → Nat
  | Invocation.noDevice => 1
  | Invocation.usage => 2
  | Invocation.run env =>
    match runCli env with
    | WorkflowResult.findMyBlocked _ => 1
    | WorkflowResult.fatal _ _ => 1
    | _ => 0

/-- A registry containing one removable Tips app, the end-to-end example of
the spec. -/
def goodReg : List (String × Option String) :=
  [("com.apple.tips",
    some "/private/var/containers/Bundle/Application/ABCD-1234/Tips.app")]

/-- A registry whose only match lives outside the removable-bundle root. -/
def nonRemovReg : List (String × Option String) :=
  [("com.apple.tips", some "/Applications/Tips.app")]

/-- A registry with two entries whose final path component matches `Tips`
case-insensitively, with different containers and casings. -/
def cexReg : List (String × Option String) :=
  [("com.apple.tips",
    some "/private/var/containers/Bundle/Application/AAAA/Tips.app"),
   ("com.apple.tips2",
    some "/private/var/containers/Bundle/Application/BBBB/tips.APP")]

/-- An environment whose device reports iOS 17.0.1 — above the supported
window. -/
def envUnsupported : Env :=
  ⟨some "iPhone", some "21A330", [17, 0, 1], some "Tips", "", [], none,
    none, none⟩

/-- An environment that reaches restore submission and gets a
`PyMobileDevice3Exception` whose message mentions Find My. -/
def envFindMy : Env :=
  ⟨some "iPhone", some "20H18", [16, 7], some "Tips", "", goodReg,
    some [1, 2, 3], some (Exn.pmd3 "Find My is enabled"), none⟩

lemma verCmp_nil_right (as : List Nat) :
    verCmp as [] =
      if as.all (fun a => a == 0) then Ordering.eq else Ordering.gt := by
  induction as with
  | nil => simp [verCmp]
  | cons a as ih =>
    cases h : (a == 0) <;> simp [verCmp, h, ih]

lemma verCmp_swap (a : List Nat) : ∀ b : List Nat,
    verCmp b a = (verCmp a b).swap := by
  induction a with
  | nil =>
    intro b
    rw [verCmp_nil_right]
    show _ = (verCmp [] b).swap
    simp only [verCmp]
    cases hb : b.all (fun x => x == 0) <;> simp [hb, Ordering.swap]
  | cons x xs ih =>
    intro b
    cases b with
    | nil =>
      show verCmp [] (x :: xs) = (verCmp (x :: xs) []).swap
      simp only [verCmp]
      cases hx : (x == 0) with
      | false => simp [hx, Ordering.swap]
      | true =>
        rw [verCmp_nil_right]
        cases hall : xs.all (fun a => a == 0) <;>
          simp [hx, hall, Ordering.swap]
    | cons y ys =>
      show verCmp (y :: ys) (x :: xs) = (verCmp (x :: xs) (y :: ys)).swap
      simp only [verCmp]
      rcases Nat.lt_trichotomy x y with h | h | h
      · simp [h, Nat.lt_asymm h, Ordering.swap]
      · subst h
        simp [Nat.lt_irrefl, ih ys]
      · simp [h, Nat.lt_asymm h, Ordering.swap]

lemma scanApps_eq (values : List (Option String)) :
    ∀ (acc : Option PyPath) (app : String),
      values.foldl scanStep (acc, app) =
        match lastMatchVal (lowerStr app) values with
        | some p => (some p, pathName p)
        | none => (acc, app) := by
  induction values with
  | nil =>
    intro acc app
    simp [lastMatchVal]
  | cons v rest ih =>
    intro acc app
    cases v with
    | none =>
      simp only [List.foldl_cons, scanStep]
      rw [ih acc app]
      simp only [lastMatchVal]
      cases h : lastMatchVal (lowerStr app) rest <;> simp [h]
    | some s =>
      simp only [List.foldl_cons, scanStep]
      cases hm : lowerStr (pathName (parsePath s)) == lowerStr app with
      | false =>
        simp only [hm, Bool.false_eq_true, if_false]
        rw [ih acc app]
        simp only [lastMatchVal]
        cases h : lastMatchVal (lowerStr app) rest <;> simp [h, hm]
      | true =>
        have hlow : lowerStr (pathName (parsePath s)) = lowerStr app :=
          eq_of_beq hm
        simp only [hm, if_true]
        rw [ih (some (parsePath s)) (pathName (parsePath s))]
        rw [hlow]
        simp only [lastMatchVal]
        cases h : lastMatchVal (lowerStr app) rest <;> simp [h, hm]

/-- The App Resolver, rewritten through the scan-loop characterization:
its result is fully determined by the LAST case-insensitive match of the
normalized name among the registry paths. -/
lemma resolveApp_eq (raw : String) (reg : List (String × Option String)) :
    resolveApp raw reg =
      match lastMatchVal (lowerStr (normalizeAppName raw))
          (reg.map Prod.snd) with
      | none => ResolveResult.notFound
      | some p =>
        if parsePath removableRoot ∈ pyParents p then
          ResolveResult.ok (pathName p) (pathName (parentPath p))
        else ResolveResult.notRemovable := by
  simp only [resolveApp, scanApps]
  rw [scanApps_eq (reg.map Prod.snd) none (normalizeAppName raw)]
  cases h : lastMatchVal (lowerStr (normalizeAppName raw)) (reg.map Prod.snd) <;>
    simp [h]

/-- Claim C1: the eligibility gate accepts a version/build pair exactly
when `15.0 ≤ v ≤ 17.0`, `v` is not in the open interval `(16.7, 17.0)`,
and `v ≠ 16.7` or the build is the 16.7 release-candidate build `20H18`;
for every rejected pair the workflow terminates with
`unsupportedVersion` (a constructor from which no restore is submitted). -/
theorem version_gate (v : List Nat) (b : String) :
    (eligible v b = true ↔
      (verLe [15, 0] v = true ∧ verLe v [17, 0] = true
        ∧ ¬(verLt [16, 7] v = true ∧ verLt v [17, 0] = true)
        ∧ (verEq v [16, 7] = true → b = "20H18")))
    ∧ (∀ env : Env, env.productVersion = v → env.buildVersion = some b →
        truthyS env.deviceClass = true → (b == "") = false →
        eligible v b = false →
        runCli env = WorkflowResult.unsupportedVersion) := by
  constructor
  · have h15 := verCmp_swap v [15, 0]
    have h167 := verCmp_swap v [16, 7]
    simp only [eligible, verLe, verLt, verGt, verEq, h15, h167]
    cases hb : b == "20H18" with
    | true =>
      have hbe : b = "20H18" := eq_of_beq hb
      subst hbe
      cases hx : verCmp v [15, 0] <;> cases hy : verCmp v [17, 0] <;>
        cases hz : verCmp v [16, 7] <;> decide
    | false =>
      have hbne : b ≠ "20H18" := by
        intro hcontr
        subst hcontr
        simp at hb
      cases hx : verCmp v [15, 0] <;> cases hy : verCmp v [17, 0] <;>
        cases hz : verCmp v [16, 7] <;>
        simp [Ordering.swap, hb, hbne] <;> decide
  · intro env h1 h2 h3 h4 h5
    have hb : truthyS env.buildVersion = true := by
      rw [h2]
      simp [truthyS, h4]
    unfold runCli
    rw [h3, hb, h1, h2]
    simp [h5]

/-- Witness for `version_gate`: iOS 17.0.1 is rejected and drives the
workflow to `unsupportedVersion`; the 16.7 release candidate is accepted. -/
theorem version_gate_witness :
    runCli envUnsupported = WorkflowResult.unsupportedVersion
      ∧ eligible [16, 7] "20H18" = true :=
  ⟨(version_gate [17, 0, 1] "21A330").2 envUnsupported rfl rfl (by decide)
      (by decide) (by decide),
    (version_gate [16, 7] "20H18").1.mpr (by decide)⟩

/-- Claim C4 (amended): the resolver scans every registry entry carrying a
path and selects the LAST one whose final path component matches the
normalized name case-insensitively (the loop has no `break`, so later
matches overwrite earlier ones); it returns `notFound` exactly when no
entry matches. -/
theorem resolver_selects_last_match (raw : String)
    (reg : List (String × Option String)) :
    (lastMatchVal (lowerStr (normalizeAppName raw)) (reg.map Prod.snd) = none
      ↔ resolveApp raw reg = ResolveResult.notFound)
    ∧ ∀ p,
        lastMatchVal (lowerStr (normalizeAppName raw)) (reg.map Prod.snd)
            = some p →
        resolveApp raw reg =
          (if parsePath removableRoot ∈ pyParents p then
            ResolveResult.ok (pathName p) (pathName (parentPath p))
          else ResolveResult.notRemovable) := by
  constructor
  · constructor
    · intro h
      rw [resolveApp_eq, h]
    · intro h
      rw [resolveApp_eq] at h
      cases hl : lastMatchVal (lowerStr (normalizeAppName raw))
          (reg.map Prod.snd) with
      | none => rfl
      | some p =>
        rw [hl] at h
        exfalso
        by_cases hm : parsePath removableRoot ∈ pyParents p <;>
          simp [hm] at h
  · intro p hp
    rw [resolveApp_eq, hp]

/-- Counterexample to claim C4 as stated: with two matching entries the
code returns the bundle name and UUID of the SECOND (last) entry, not of
the first match that the claim designates. -/
theorem resolver_first_match_cex :
    resolveApp "Tips" cexReg = ResolveResult.ok "tips.APP" "BBBB"
    ∧ firstMatchVal (lowerStr (normalizeAppName "Tips")) (cexReg.map Prod.snd)
        = some (parsePath
            "/private/var/containers/Bundle/Application/AAAA/Tips.app")
    ∧ pathName (parsePath
          "/private/var/containers/Bundle/Application/AAAA/Tips.app")
        = "Tips.app"
    ∧ pathName (parentPath (parsePath
          "/private/var/containers/Bundle/Application/AAAA/Tips.app"))
        = "AAAA"
    ∧ ResolveResult.ok "tips.APP" "BBBB" ≠ ResolveResult.ok "Tips.app" "AAAA" := by
  refine ⟨by decide, by decide, by decide, by decide, by decide⟩

/-- Witness for `resolver_selects_last_match`: the two-match registry
resolves through the last match, and a registry without a matching path
resolves to `notFound`. -/
theorem resolver_selects_last_match_witness :
    resolveApp "Tips" cexReg =
      (if parsePath removableRoot ∈ pyParents (parsePath
            "/private/var/containers/Bundle/Application/BBBB/tips.APP") then
        ResolveResult.ok
          (pathName (parsePath
            "/private/var/containers/Bundle/Application/BBBB/tips.APP"))
          (pathName (parentPath (parsePath
            "/private/var/containers/Bundle/Application/BBBB/tips.APP")))
      else ResolveResult.notRemovable)
    ∧ resolveApp "Tips" [("com.apple.stocks", none)]
        = ResolveResult.notFound :=
  ⟨(resolver_selects_last_match "Tips" cexReg).2
      (parsePath "/private/var/containers/Bundle/Application/BBBB/tips.APP")
      (by decide),
    (resolver_selects_last_match "Tips" [("com.apple.stocks", none)]).1.mp
      (by decide)⟩

/-- Claim C6: a matched path whose ancestry does not include the
removable-bundle root makes the resolver fail with `notRemovable`, and a
successful resolution implies the selected path is rooted there. -/
theorem removable_root_guard (raw : String)
    (reg : List (String × Option String)) :
    (∀ p,
        lastMatchVal (lowerStr (normalizeAppName raw)) (reg.map Prod.snd)
            = some p →
        parsePath removableRoot ∉ pyParents p →
        resolveApp raw reg = ResolveResult.notRemovable)
    ∧ ∀ n u, resolveApp raw reg = ResolveResult.ok n u →
        ∃ p,
          lastMatchVal (lowerStr (normalizeAppName raw)) (reg.map Prod.snd)
              = some p
          ∧ parsePath removableRoot ∈ pyParents p := by
  constructor
  · intro p hp hnot
    rw [resolveApp_eq, hp]
    simp [hnot]
  · intro n u h
    rw [resolveApp_eq] at h
    cases hl : lastMatchVal (lowerStr (normalizeAppName raw))
        (reg.map Prod.snd) with
    | none =>
      rw [hl] at h
      exact absurd h (by simp)
    | some p =>
      rw [hl] at h
      by_cases hm : parsePath removableRoot ∈ pyParents p
      · exact ⟨p, rfl, hm⟩
      · simp [hm] at h

/-- Witness for `removable_root_guard`: a Tips bundle under `/Applications`
is rejected as not removable, and the removable Tips bundle resolves with
its path rooted under the removable-bundle root. -/
theorem removable_root_guard_witness :
    resolveApp "Tips" nonRemovReg = ResolveResult.notRemovable
    ∧ ∃ p,
        lastMatchVal (lowerStr (normalizeAppName "Tips"))
            (goodReg.map Prod.snd) = some p
        ∧ parsePath removableRoot ∈ pyParents p :=
  ⟨(removable_root_guard "Tips" nonRemovReg).1
      (parsePath "/Applications/Tips.app") (by decide) (by decide),
    (removable_root_guard "Tips" goodReg).2 "Tips.app" "ABCD-1234" (by decide)⟩

/-- Claim C7: the resolver appends `.app` exactly when the input lacks the
suffix; a successful resolution returns the bundle name with the casing
found on the device and the UUID that names the bundle path's immediate
parent directory; the spec's end-to-end example resolves to
`Tips.app` / `ABCD-1234`. -/
theorem resolver_normalization_and_success (raw : String)
    (reg : List (String × Option String)) :
    (strEndsWith raw ".app" = true → normalizeAppName raw = raw)
    ∧ (strEndsWith raw ".app" = false → normalizeAppName raw = raw ++ ".app")
    ∧ (∀ n u, resolveApp raw reg = ResolveResult.ok n u →
        ∃ p,
          lastMatchVal (lowerStr (normalizeAppName raw)) (reg.map Prod.snd)
              = some p
          ∧ n = pathName p ∧ u = pathName (parentPath p))
    ∧ resolveApp "Tips" goodReg = ResolveResult.ok "Tips.app" "ABCD-1234" := by
  refine ⟨?_, ?_, ?_, by decide⟩
  · intro h
    simp [normalizeAppName, h]
  · intro h
    simp [normalizeAppName, h]
  · intro n u h
    rw [resolveApp_eq] at h
    cases hl : lastMatchVal (lowerStr (normalizeAppName raw))
        (reg.map Prod.snd) with
    | none =>
      rw [hl] at h
      exact absurd h (by simp)
    | some p =>
      rw [hl] at h
      by_cases hm : parsePath removableRoot ∈ pyParents p
      · simp only [hm, if_true] at h
        exact ⟨p, rfl, by
          cases h
          exact rfl, by
          cases h
          exact rfl⟩
      · simp [hm] at h

/-- Witness for `resolver_normalization_and_success`: both normalization
branches at concrete names, and the success shape at the example
registry. -/
theorem resolver_normalization_and_success_witness :
    normalizeAppName "Tips.app" = "Tips.app"
    ∧ normalizeAppName "Tips" = "Tips" ++ ".app"
    ∧ ∃ p,
        lastMatchVal (lowerStr (normalizeAppName "Tips"))
            (goodReg.map Prod.snd) = some p
        ∧ "Tips.app" = pathName p ∧ "ABCD-1234" = pathName (parentPath p) :=
  ⟨(resolver_normalization_and_success "Tips.app" []).1 (by decide),
    (resolver_normalization_and_success "Tips" []).2.1 (by decide),
    (resolver_normalization_and_success "Tips" goodReg).2.2.1 "Tips.app"
      "ABCD-1234" (by decide)⟩

/-- Like `envFindMy` but the restore error message carries only the
terminal-entry marker. -/
def envCrash : Env :=
  ⟨some "iPhone", some "20H18", [16, 7], some "Tips", "", goodReg,
    some [1, 2, 3], some (Exn.pmd3 "session aborted: crash_on_purpose"),
    none⟩

/-- Like `envFindMy` but the restore error message carries both marker
texts. -/
def envBothMarkers : Env :=
  ⟨some "iPhone", some "20H18", [16, 7], some "Tips", "", goodReg,
    some [1, 2, 3],
    some (Exn.pmd3 "Find My blocked while writing crash_on_purpose"), none⟩

/-- Like `envFindMy` but the restore raises an exception outside the
`PyMobileDevice3Exception` family, its message containing both markers. -/
def envOtherExn : Env :=
  ⟨some "iPhone", some "20H18", [16, 7], some "Tips", "", goodReg,
    some [1, 2, 3],
    some (Exn.other "crash_on_purpose after Find My check"), none⟩

/-- Reduction of `runCli` for an environment that passes the device-info
check, the version gate, app resolution and the payload download: the
outcome is decided by the restore handler and the reboot result. -/
lemma runCli_restore (env : Env) (n u : String) (pl : List Nat)
    (hdc : truthyS env.deviceClass = true)
    (hdb : truthyS env.buildVersion = true)
    (hel : eligible env.productVersion (env.buildVersion.getD "") = true)
    (hres : resolveApp (inputApp env) env.registry = ResolveResult.ok n u)
    (hpl : env.payload = some pl) :
    runCli env =
      match handleRestore env.restoreResult with
      | RestoreStep.findMyBlocked =>
        WorkflowResult.findMyBlocked (buildManifest pl n u)
      | RestoreStep.reraise e =>
        WorkflowResult.fatal (buildManifest pl n u) e
      | RestoreStep.proceed =>
        match env.rebootResult with
        | some e => WorkflowResult.fatal (buildManifest pl n u) e
        | none => WorkflowResult.success (buildManifest pl n u) := by
  unfold runCli
  rw [hdc, hdb, hel, hres, hpl]
  simp

/-- Claim C3: a restore-mechanism error containing `"Find My"` is
classified as Find-My-blocked and the workflow terminates there; an error
containing `"crash_on_purpose"` (and not `"Find My"`) is the expected
outcome and the workflow proceeds to reboot and succeeds; any other
restore-mechanism error is fatal and propagates unmodified. -/
theorem restore_outcome_classification (env : Env) (msg n u : String)
    (pl : List Nat)
    (hdc : truthyS env.deviceClass = true)
    (hdb : truthyS env.buildVersion = true)
    (hel : eligible env.productVersion (env.buildVersion.getD "") = true)
    (hres : resolveApp (inputApp env) env.registry = ResolveResult.ok n u)
    (hpl : env.payload = some pl)
    (hreb : env.rebootResult = none)
    (hr : env.restoreResult = some (Exn.pmd3 msg)) :
    (containsSubstr msg "Find My" = true →
      runCli env = WorkflowResult.findMyBlocked (buildManifest pl n u))
    ∧ (containsSubstr msg "Find My" = false →
        containsSubstr msg "crash_on_purpose" = true →
        runCli env = WorkflowResult.success (buildManifest pl n u))
    ∧ (containsSubstr msg "Find My" = false →
        containsSubstr msg "crash_on_purpose" = false →
        runCli env = WorkflowResult.fatal (buildManifest pl n u)
          (Exn.pmd3 msg)) := by
  have hrun := runCli_restore env n u pl hdc hdb hel hres hpl
  refine ⟨?_, ?_, ?_⟩
  · intro h
    rw [hrun, hr]
    simp [handleRestore, h]
  · intro h1 h2
    rw [hrun, hr, hreb]
    simp [handleRestore, h1, h2]
  · intro h1 h2
    rw [hrun, hr]
    simp [handleRestore, h1, h2]

/-- Witness for `restore_outcome_classification`: the Find My branch and
the expected-outcome branch at concrete environments. -/
theorem restore_outcome_classification_witness :
    runCli envFindMy =
      WorkflowResult.findMyBlocked
        (buildManifest [1, 2, 3] "Tips.app" "ABCD-1234")
    ∧ runCli envCrash =
        WorkflowResult.success
          (buildManifest [1, 2, 3] "Tips.app" "ABCD-1234") :=
  ⟨(restore_outcome_classification envFindMy "Find My is enabled" "Tips.app"
      "ABCD-1234" [1, 2, 3] (by decide) (by decide) (by decide) (by decide)
      rfl rfl rfl).1 (by decide),
    (restore_outcome_classification envCrash
      "session aborted: crash_on_purpose" "Tips.app" "ABCD-1234" [1, 2, 3]
      (by decide) (by decide) (by decide) (by decide) rfl rfl rfl).2.1
      (by decide) (by decide)⟩

/-- Claim C9: when a restore-mechanism error message contains both the
`"Find My"` marker and the `"crash_on_purpose"` marker, the Find My check
wins: the workflow terminates Find-My-blocked with exit code 1 and never
reports success. -/
theorem findmy_marker_precedence (env : Env) (msg n u : String)
    (pl : List Nat)
    (hdc : truthyS env.deviceClass = true)
    (hdb : truthyS env.buildVersion = true)
    (hel : eligible env.productVersion (env.buildVersion.getD "") = true)
    (hres : resolveApp (inputApp env) env.registry = ResolveResult.ok n u)
    (hpl : env.payload = some pl)
    (hr : env.restoreResult = some (Exn.pmd3 msg))
    (hfm : containsSubstr msg "Find My" = true)
    (hcr : containsSubstr msg "crash_on_purpose" = true) :
    runCli env = WorkflowResult.findMyBlocked (buildManifest pl n u)
    ∧ mainExitCode (Invocation.run env) = 1
    ∧ ∀ m : List Entry, runCli env ≠ WorkflowResult.success m := by
  have hrun := runCli_restore env n u pl hdc hdb hel hres hpl
  have h1 : runCli env = WorkflowResult.findMyBlocked (buildManifest pl n u) := by
    rw [hrun, hr]
    simp [handleRestore, hfm]
  refine ⟨h1, ?_, ?_⟩
  · simp [mainExitCode, h1]
  · intro m
    rw [h1]
    simp

/-- Witness for `findmy_marker_precedence` at a message carrying both
markers. -/
theorem findmy_marker_precedence_witness :
    runCli envBothMarkers =
      WorkflowResult.findMyBlocked
        (buildManifest [1, 2, 3] "Tips.app" "ABCD-1234")
    ∧ mainExitCode (Invocation.run envBothMarkers) = 1 :=
  ⟨(findmy_marker_precedence envBothMarkers
      "Find My blocked while writing crash_on_purpose" "Tips.app" "ABCD-1234"
      [1, 2, 3] (by decide) (by decide) (by decide) (by decide) rfl rfl
      (by decide) (by decide)).1,
    (findmy_marker_precedence envBothMarkers
      "Find My blocked while writing crash_on_purpose" "Tips.app" "ABCD-1234"
      [1, 2, 3] (by decide) (by decide) (by decide) (by decide) rfl rfl
      (by decide) (by decide)).2.1⟩

/-- Claim C10: an exception outside the `PyMobileDevice3Exception` family
raised by restore submission is never classified: it propagates out of
`cli` unmodified (the same message payload) and the process exits 1, no
matter which marker texts its message contains. -/
theorem non_restore_exception_propagation (env : Env) (msg n u : String)
    (pl : List Nat)
    (hdc : truthyS env.deviceClass = true)
    (hdb : truthyS env.buildVersion = true)
    (hel : eligible env.productVersion (env.buildVersion.getD "") = true)
    (hres : resolveApp (inputApp env) env.registry = ResolveResult.ok n u)
    (hpl : env.payload = some pl)
    (hr : env.restoreResult = some (Exn.other msg)) :
    runCli env = WorkflowResult.fatal (buildManifest pl n u) (Exn.other msg)
    ∧ mainExitCode (Invocation.run env) = 1 := by
  have hrun := runCli_restore env n u pl hdc hdb hel hres hpl
  have h1 : runCli env =
      WorkflowResult.fatal (buildManifest pl n u) (Exn.other msg) := by
    rw [hrun, hr]
    simp [handleRestore]
  exact ⟨h1, by simp [mainExitCode, h1]⟩

/-- Witness for `non_restore_exception_propagation`: a non-pymobiledevice3
exception whose message contains both marker texts still propagates as
fatal. -/
theorem non_restore_exception_propagation_witness :
    runCli envOtherExn =
      WorkflowResult.fatal (buildManifest [1, 2, 3] "Tips.app" "ABCD-1234")
        (Exn.other "crash_on_purpose after Find My check")
    ∧ mainExitCode (Invocation.run envOtherExn) = 1 :=
  ⟨(non_restore_exception_propagation envOtherExn
      "crash_on_purpose after Find My check" "Tips.app" "ABCD-1234" [1, 2, 3]
      (by decide) (by decide) (by decide) (by decide) rfl rfl).1,
    (non_restore_exception_propagation envOtherExn
      "crash_on_purpose after Find My check" "Tips.app" "ABCD-1234" [1, 2, 3]
      (by decide) (by decide) (by decide) (by decide) rfl rfl).2⟩

/-- Claim C5 (amended): only three terminal situations exit non-zero — no
device connected (1), usage error (2), an exception propagating out of
`cli` (1) and the Find My `exit(1)`; every early failure path of `cli`
(`return` after printing: missing device info, unsupported version, app
not found, app not removable, payload download failure) reaches `main`'s
final `exit(0)` and the process exits 0, exactly as the success path
does. -/
theorem process_exit_codes :
    mainExitCode Invocation.noDevice = 1
    ∧ mainExitCode Invocation.usage = 2
    ∧ ∀ env : Env,
        (runCli env = WorkflowResult.deviceInfoUnavailable →
          mainExitCode (Invocation.run env) = 0)
        ∧ (runCli env = WorkflowResult.unsupportedVersion →
            mainExitCode (Invocation.run env) = 0)
        ∧ (runCli env = WorkflowResult.appNotFound →
            mainExitCode (Invocation.run env) = 0)
        ∧ (runCli env = WorkflowResult.appNotRemovable →
            mainExitCode (Invocation.run env) = 0)
        ∧ (runCli env = WorkflowResult.payloadUnavailable →
            mainExitCode (Invocation.run env) = 0)
        ∧ (∀ m, runCli env = WorkflowResult.findMyBlocked m →
            mainExitCode (Invocation.run env) = 1)
        ∧ (∀ m e, runCli env = WorkflowResult.fatal m e →
            mainExitCode (Invocation.run env) = 1)
        ∧ (∀ m, runCli env = WorkflowResult.success m →
            mainExitCode (Invocation.run env) = 0) := by
  refine ⟨rfl, rfl, fun env => ⟨?_, ?_, ?_, ?_, ?_, ?_, ?_, ?_⟩⟩
  · intro h
    simp [mainExitCode, h]
  · intro h
    simp [mainExitCode, h]
  · intro h
    simp [mainExitCode, h]
  · intro h
    simp [mainExitCode, h]
  · intro h
    simp [mainExitCode, h]
  · intro m h
    simp [mainExitCode, h]
  · intro m e h
    simp [mainExitCode, h]
  · intro m h
    simp [mainExitCode, h]

/-- Counterexample to claim C5 as stated: an unsupported device version is
a terminal failure, yet the process exits with code 0 (`cli` returns
normally and `main` falls through to `exit(0)`). -/
theorem exit_code_cex :
    runCli envUnsupported = WorkflowResult.unsupportedVersion
    ∧ mainExitCode (Invocation.run envUnsupported) = 0 := by
  refine ⟨by decide, by decide⟩

/-- Witness for `process_exit_codes`: the unsupported-version path exits 0
and the Find My path exits 1. -/
theorem process_exit_codes_witness :
    mainExitCode (Invocation.run envUnsupported) = 0
    ∧ mainExitCode (Invocation.run envFindMy) = 1 :=
  ⟨((process_exit_codes.2.2 envUnsupported).2.1) (by decide),
    ((process_exit_codes.2.2 envFindMy).2.2.2.2.2.1)
      (buildManifest [1, 2, 3] "Tips.app" "ABCD-1234") (by decide)⟩

/-- The target location of a manifest entry as a character string: the
domain, extended by the relative path when the latter is non-empty — the
pair from which the restore mechanism computes its write target. -/
def targetChars (e : Entry) : List Char :=
  if e.relativePath == "" then e.domain.data
  else e.domain.data ++ '/' :: e.relativePath.data

/-- Path-prefix relation on target locations: equal, or a proper ancestor
(the shorter location followed by a path separator is a string prefix of
the longer one). -/
def isPathPrefixL (a b : List Char) : Bool :=
  a == b || (a ++ ['/']).isPrefixOf b

example : isPathPrefixL "RootDomain".data "RootDomain/Library".data = true := by
  decide
example : isPathPrefixL "RootDomain/Library".data "RootDomain".data = false := by
  decide

lemma not_prefix_head_ne (c d : Char) (x y : List Char)
    (h : (c == d) = false) :
    isPathPrefixL (c :: x) (d :: y) = false := by
  simp only [isPathPrefixL, Bool.or_eq_false_iff]
  constructor
  · exact beq_eq_false_iff_ne.mpr (by
      intro hcontr
      injection hcontr with h1 _
      exact absurd h1 (beq_eq_false_iff_ne.mp h))
  · rw [List.cons_append]
    apply Bool.eq_false_iff.mpr
    intro hc
    rw [ List.isPrefixOf_iff_prefix, List.cons_prefix_cons] at hc
    exact absurd hc.1 (beq_eq_false_iff_ne.mp h)

lemma travDir_target (appUuid app : String) :
    targetChars (Entry.directory ""
        ("SysContainerDomain-../../../../../../../../var/backup/var/containers/Bundle/Application/"
          ++ appUuid ++ "/" ++ app) (some 33) (some 33))
      = 'S' ::
        ("ysContainerDomain-../../../../../../../../var/backup/var/containers/Bundle/Application/"
          ++ appUuid ++ "/" ++ app).data := by
  simp only [targetChars, Entry.relativePath, Entry.domain]
  rw [if_pos (show (("" : String) == "") = true from rfl)]
  simp only [String.data_append]
  simp [List.cons_append]

/-- Claim C8: reading the manifest pairwise in order, no Directory entry's
target location is a path-prefix of a STRICTLY EARLIER entry's target
location — i.e. every Directory entry whose target is a prefix of another
entry's target appears strictly earlier than that dependent entry; and the
conspicuous terminal marker entry is the last element. -/
theorem manifest_ordering_invariant (payload : List Nat)
    (app appUuid : String) :
    List.Pairwise
      (fun a b => Entry.isDirectory b = true →
        isPathPrefixL (targetChars b) (targetChars a) = false)
      (buildManifest payload app appUuid)
    ∧ (buildManifest payload app appUuid).getLast?
        = some (Entry.concreteFile ""
            ("SysContainerDomain-../../../../../../../.." ++ "/crash_on_purpose")
            none none [] none) := by
  constructor
  · simp only [buildManifest]
    simp [List.pairwise_cons, Entry.isDirectory]
    refine ⟨⟨?_, ?_, ?_⟩, ⟨?_, ?_⟩, ?_, ?_⟩
    all_goals first
      | decide
      | exact not_prefix_head_ne 'S' 'R' _ _ (by decide)
  · rfl

/-- Claim C2 (amended): for every payload, resolved bundle name and
container UUID the Manifest Builder produces exactly the eight-entry
sequence of spec §4.2 — three `RootDomain` Directory entries, the payload
`ConcreteFile` at `Library/Preferences/temp` owned by uid/gid 33 with
inode hint 0, the traversal Directory for the app container, a
`ConcreteFile` whose final path component is the bundle name truncated at
its FIRST dot (`app.split('.')[0]`; equal to the name without its
extension exactly when the base name contains no further dot), the
hard-link-break `ConcreteFile` owned by uid/gid 501 under the
`var/.backup.i/` staging re-entry, and the terminal marker entry — where
every traversal domain starts with `SysContainerDomain-` followed by
exactly eight `../` steps, the container entries re-enter via
`var/backup/`, and the last entry's domain ends in the marker name. -/
theorem manifest_builder_output (payload : List Nat) (app appUuid : String) :
    buildManifest payload app appUuid =
      [ Entry.directory "" "RootDomain" none none,
        Entry.directory "Library" "RootDomain" none none,
        Entry.directory "Library/Preferences" "RootDomain" none none,
        Entry.concreteFile "Library/Preferences/temp" "RootDomain"
          (some 33) (some 33) payload (some 0),
        Entry.directory ""
          ("SysContainerDomain-" ++ ascend 8
            ++ "var/backup/var/containers/Bundle/Application/"
            ++ appUuid ++ "/" ++ app)
          (some 33) (some 33),
        Entry.concreteFile ""
          ("SysContainerDomain-" ++ ascend 8
            ++ "var/backup/var/containers/Bundle/Application/"
            ++ appUuid ++ "/" ++ app ++ "/" ++ splitFirst app)
          (some 33) (some 33) [] (some 0),
        Entry.concreteFile ""
          ("SysContainerDomain-" ++ ascend 8
            ++ "var/.backup.i/var/root/Library/Preferences/temp")
          (some 501) (some 501) [] none,
        Entry.concreteFile ""
          ("SysContainerDomain-" ++ ascend 8 ++ "crash_on_purpose")
          none none [] none ]
    ∧ ∃ e, (buildManifest payload app appUuid).getLast? = some e
        ∧ strEndsWith (Entry.domain e) "crash_on_purpose" = true := by
  constructor
  · rfl
  · exact ⟨Entry.concreteFile ""
      ("SysContainerDomain-../../../../../../../.." ++ "/crash_on_purpose")
      none none [] none, rfl, by decide⟩

/-- Counterexample to claim C2 as stated: for the bundle name `a.b.app`
the sixth manifest entry's location ends in `a` — `app.split('.')[0]` —
whereas the claim's "bundle name without extension" is `a.b`. -/
theorem manifest_exec_name_cex :
    (buildManifest [] "a.b.app" "UUID")[5]?
        = some (Entry.concreteFile ""
            "SysContainerDomain-../../../../../../../../var/backup/var/containers/Bundle/Application/UUID/a.b.app/a"
            (some 33) (some 33) [] (some 0))
    ∧ stripExtSpec "a.b.app" = "a.b"
    ∧ splitFirst "a.b.app" = "a"
    ∧ "SysContainerDomain-../../../../../../../../var/backup/var/containers/Bundle/Application/UUID/a.b.app/a"
        ≠ "SysContainerDomain-../../../../../../../../var/backup/var/containers/Bundle/Application/UUID/a.b.app/"
          ++ stripExtSpec "a.b.app" := by
  refine ⟨by decide, by decide, by decide, by decide⟩
